import Mathlib

/-!
Verification of the core computations of the OS task-manager dashboard
(`gui_dashboard.py`): the health-score function, the security-scanner
fallback chain, the shell-history safety scan, the network-rate
computation, and the fixed-capacity metric history buffers.

Numbers are modelled exactly: Python floats that hold percentage or time
values become rationals, counters and scores become integers, and the
Python `int()` conversion (truncation toward zero) is modelled explicitly.
-/

/-- Python `int()` applied to a real-valued quantity truncates toward zero:
floor for nonnegative arguments, ceiling for negative ones. -/
def pyTrunc (q : ℚ) : ℤ := if q < 0 then ⌈q⌉ else ⌊q⌋

/-- `calculate_health_score` from `gui_dashboard.py` (lines 131-148):
start at 100, subtract `int(cpu/2)`, `int(ram/3)`, `int(disk/4)`,
subtract `min(20, failed_logins*2)` when `failed_logins > 0`,
then clamp below at 0 and above at 100. -/
def calculate_health_score (cpu_percent ram_percent disk_percent : ℚ)
    (failed_logins : ℤ) : ℤ :=
  let score : ℤ := 100
  let score := score - pyTrunc (cpu_percent / 2)
  let score := score - pyTrunc (ram_percent / 3)
  let score := score - pyTrunc (disk_percent / 4)
  let score := if failed_logins > 0 then score - min 20 (failed_logins * 2) else score
  let score := if score < 0 then 0 else score
  if score > 100 then 100 else score

/-- The security penalty term of `calculate_health_score`. -/
def loginPenalty (failed_logins : ℤ) : ℤ :=
  if failed_logins > 0 then min 20 (failed_logins * 2) else 0

/-- The final two-sided clamp of `calculate_health_score`, as the code
writes it: first raise negatives to 0, then lower values above 100 to 100. -/
def scoreClamp (s : ℤ) : ℤ :=
  let s := if s < 0 then 0 else s
  if s > 100 then 100 else s

/-- The pre-clamp score of `calculate_health_score`. -/
def rawScore (cpu ram disk : ℚ) (failed : ℤ) : ℤ :=
  100 - pyTrunc (cpu / 2) - pyTrunc (ram / 3) - pyTrunc (disk / 4) - loginPenalty failed

theorem calculate_health_score_eq (cpu ram disk : ℚ) (failed : ℤ) :
    calculate_health_score cpu ram disk failed = scoreClamp (rawScore cpu ram disk failed) := by
  simp only [calculate_health_score, scoreClamp, rawScore, loginPenalty]
  split_ifs <;> omega

/-- HealthScorer exactly as the specification words it (claim C3): 100 minus
floor(cpu/2), floor(ram/3), floor(disk/4), minus `min(20, failed*2)` when
`failed > 0`, the result clamped to [0, 100]. -/
def health_score_spec (cpu ram disk : ℚ) (failed : ℤ) : ℤ :=
  min 100 (max 0 (100 - ⌊cpu / 2⌋ - ⌊ram / 3⌋ - ⌊disk / 4⌋ - loginPenalty failed))

theorem scoreClamp_eq_min_max (s : ℤ) : scoreClamp s = min 100 (max 0 s) := by
  simp only [scoreClamp]
  split_ifs <;> omega

theorem pyTrunc_eq_floor_of_nonneg {q : ℚ} (h : 0 ≤ q) : pyTrunc q = ⌊q⌋ := by
  simp only [pyTrunc, if_neg (not_lt.mpr h)]

theorem pyTrunc_mono {a b : ℚ} (h : a ≤ b) : pyTrunc a ≤ pyTrunc b := by
  unfold pyTrunc
  rcases lt_or_le a 0 with ha | ha <;> rcases lt_or_le b 0 with hb | hb
  · rw [if_pos ha, if_pos hb]
    exact Int.ceil_le_ceil h
  · rw [if_pos ha, if_neg (not_lt.mpr hb)]
    calc ⌈a⌉ ≤ ⌈(0 : ℚ)⌉ := Int.ceil_le_ceil (le_of_lt ha)
      _ = 0 := by simp
      _ ≤ ⌊b⌋ := Int.floor_nonneg.mpr hb
  · exact absurd (lt_of_le_of_lt h hb) (not_lt.mpr ha)
  · rw [if_neg (not_lt.mpr ha), if_neg (not_lt.mpr hb)]
    exact Int.floor_le_floor h

theorem loginPenalty_mono {a b : ℤ} (h : a ≤ b) : loginPenalty a ≤ loginPenalty b := by
  simp only [loginPenalty]
  split_ifs <;> omega

theorem scoreClamp_mono {a b : ℤ} (h : a ≤ b) : scoreClamp a ≤ scoreClamp b := by
  simp only [scoreClamp]
  split_ifs <;> omega

/-- C1: for every input quadruple (cpu, ram, disk, failed_logins), including
out-of-range and negative values, `calculate_health_score` returns an
integer in the closed interval [0, 100]. -/
theorem C1_health_score_bounded (cpu ram disk : ℚ) (failed : ℤ) :
    0 ≤ calculate_health_score cpu ram disk failed ∧
      calculate_health_score cpu ram disk failed ≤ 100 := by
  rw [calculate_health_score_eq]
  simp only [scoreClamp]
  split_ifs <;> omega

/-- C3 as stated is false: the claim asserts the floor-based formula for
every input quadruple, but Python `int()` truncates toward zero, so at
cpu=10, ram=-10, disk=0, failed_logins=0 the code returns 98 while the
floor-based formula of the claim gives 99. -/
theorem C3_counterexample :
    calculate_health_score 10 (-10) 0 0 = 98 ∧
      health_score_spec 10 (-10) 0 0 = 99 ∧ (98 : ℤ) ≠ 99 := by
  have hceil : ⌈-(10 / 3 : ℚ)⌉ = -3 := by
    rw [Int.ceil_eq_iff]
    constructor <;> norm_num
  have hfloor : ⌊-(10 / 3 : ℚ)⌋ = -4 := by
    rw [Int.floor_eq_iff]
    constructor <;> norm_num
  refine ⟨?_, ?_, by decide⟩ <;>
    norm_num [calculate_health_score, health_score_spec, pyTrunc, loginPenalty, hceil, hfloor]

/-- C3 amended: for nonnegative cpu, ram and disk percentages (where
truncation toward zero agrees with floor) the code returns exactly the
claimed formula, 100 minus floor(cpu/2) minus floor(ram/3) minus
floor(disk/4), minus min(20, failed*2) when failed > 0, clamped to
[0, 100]; in particular (0,0,0,0) yields 100 and (100,99,100,5) yields 0. -/
theorem C3_health_score_formula :
    (∀ (cpu ram disk : ℚ) (failed : ℤ), 0 ≤ cpu → 0 ≤ ram → 0 ≤ disk →
      calculate_health_score cpu ram disk failed = health_score_spec cpu ram disk failed) ∧
    calculate_health_score 0 0 0 0 = 100 ∧
    calculate_health_score 100 99 100 5 = 0 := by
  refine ⟨fun cpu ram disk failed hc hr hd => ?_,
    by norm_num [calculate_health_score, pyTrunc, loginPenalty],
    by norm_num [calculate_health_score, pyTrunc, loginPenalty]⟩
  rw [calculate_health_score_eq, scoreClamp_eq_min_max]
  simp only [health_score_spec, rawScore]
  rw [pyTrunc_eq_floor_of_nonneg (by positivity),
    pyTrunc_eq_floor_of_nonneg (by positivity),
    pyTrunc_eq_floor_of_nonneg (by positivity)]

/-- Witness for C3_health_score_formula at cpu=50, ram=60, disk=70, failed=3. -/
theorem C3_health_score_formula_witness :
    calculate_health_score 50 60 70 3 = health_score_spec 50 60 70 3 :=
  C3_health_score_formula.1 50 60 70 3 (by norm_num) (by norm_num) (by norm_num)

/-- C9: `calculate_health_score` is monotonically non-increasing in each of
its four arguments separately: raising any one of cpu, ram, disk or
failed_logins while the other three stay fixed never increases the score. -/
theorem C9_health_score_antitone :
    ∀ (cpu cpu' ram ram' disk disk' : ℚ) (f f' : ℤ),
      (cpu ≤ cpu' →
        calculate_health_score cpu' ram disk f ≤ calculate_health_score cpu ram disk f) ∧
      (ram ≤ ram' →
        calculate_health_score cpu ram' disk f ≤ calculate_health_score cpu ram disk f) ∧
      (disk ≤ disk' →
        calculate_health_score cpu ram disk' f ≤ calculate_health_score cpu ram disk f) ∧
      (f ≤ f' →
        calculate_health_score cpu ram disk f' ≤ calculate_health_score cpu ram disk f) := by
  intro cpu cpu' ram ram' disk disk' f f'
  refine ⟨fun h => ?_, fun h => ?_, fun h => ?_, fun h => ?_⟩ <;>
    rw [calculate_health_score_eq, calculate_health_score_eq] <;>
    apply scoreClamp_mono <;> simp only [rawScore]
  · have := pyTrunc_mono (show cpu / 2 ≤ cpu' / 2 by gcongr)
    omega
  · have := pyTrunc_mono (show ram / 3 ≤ ram' / 3 by gcongr)
    omega
  · have := pyTrunc_mono (show disk / 4 ≤ disk' / 4 by gcongr)
    omega
  · have := loginPenalty_mono h
    omega

/-- Witness for C9_health_score_antitone: each coordinate at a concrete pair. -/
theorem C9_health_score_antitone_witness :
    calculate_health_score 80 10 10 1 ≤ calculate_health_score 20 10 10 1 ∧
    calculate_health_score 20 90 10 1 ≤ calculate_health_score 20 10 10 1 ∧
    calculate_health_score 20 10 90 1 ≤ calculate_health_score 20 10 10 1 ∧
    calculate_health_score 20 10 10 7 ≤ calculate_health_score 20 10 10 1 :=
  ⟨(C9_health_score_antitone 20 80 10 10 10 10 1 1).1 (by norm_num),
   (C9_health_score_antitone 20 80 10 90 10 10 1 1).2.1 (by norm_num),
   (C9_health_score_antitone 20 80 10 90 10 90 1 1).2.2.1 (by norm_num),
   (C9_health_score_antitone 20 80 10 90 10 90 1 7).2.2.2 (by norm_num)⟩

/-- The elapsed-time denominator of the network-rate computation in
TaskStudyManager.update_system_info (line 363): the difference of the two
clock readings when the current one is strictly later, otherwise 1.0. -/
def netDt (now last_net_time : ℚ) : ℚ :=
  if last_net_time < now then now - last_net_time else 1

/-- One network rate as computed in update_system_info (lines 365-366):
the current byte counter minus the stored previous counter, divided by the
elapsed time and by 1024 (KB per second). -/
def netRate (cur prev : ℤ) (now last_net_time : ℚ) : ℚ :=
  ((cur : ℚ) - (prev : ℚ)) / netDt now last_net_time / 1024

/-- Network rate as claim C7 words it: the counter delta divided by
max(elapsed, ε) with the floor ε = 1.0 named by the specification, and by
1024 for the same units as the code. -/
def netRateSpec (delta : ℤ) (elapsed : ℚ) : ℚ :=
  (delta : ℚ) / max elapsed 1 / 1024

theorem netDt_pos (now last : ℚ) : 0 < netDt now last := by
  unfold netDt
  split_ifs with h
  · linarith
  · norm_num

/-- C2 as stated is false: the code has no clamp, so a counter reset
produces a negative rate. With previous counter 2048, current counter 1024
and one elapsed time unit the code computes the rate -1, not 0. -/
theorem C2_counterexample :
    netRate 1024 2048 2 1 = -1 ∧ ¬(0 ≤ netRate 1024 2048 2 1) := by
  have h : netRate 1024 2048 2 1 = -1 := by
    norm_num [netRate, netDt]
  exact ⟨h, by rw [h]; norm_num⟩

/-- C2 amended: update_system_info does not clamp the network rates; on
every sampling invocation whose current byte counter is smaller than the
stored previous counter, the computed rate is strictly negative. -/
theorem C2_negative_delta_negative_rate (cur prev : ℤ) (now last : ℚ)
    (h : cur < prev) : netRate cur prev now last < 0 := by
  unfold netRate
  have hd : ((cur : ℚ) - (prev : ℚ)) < 0 := by
    have : (cur : ℚ) < (prev : ℚ) := by exact_mod_cast h
    linarith
  exact div_neg_of_neg_of_pos (div_neg_of_neg_of_pos hd (netDt_pos now last)) (by norm_num)

/-- Witness for C2_negative_delta_negative_rate at counters 1024 and 2048. -/
theorem C2_negative_delta_negative_rate_witness : netRate 1024 2048 2 1 < 0 :=
  C2_negative_delta_negative_rate 1024 2048 2 1 (by decide)

/-- C7 as stated is false: the code divides by the elapsed time itself
whenever it is positive, not by max(elapsed, 1.0). With a delta of 1024
bytes and an elapsed time of 1/2, the code yields rate 2 while the
max-floored formula of the claim yields 1. -/
theorem C7_counterexample :
    netRate 1024 0 (3 / 2) 1 = 2 ∧ netRateSpec 1024 (1 / 2) = 1 ∧ (2 : ℚ) ≠ 1 := by
  refine ⟨?_, ?_, by norm_num⟩
  · norm_num [netRate, netDt]
  · have hm : max (1 / 2 : ℚ) 1 = 1 := max_eq_right (by norm_num)
    norm_num [netRateSpec, hm]

/-- C7 amended: the denominator is the elapsed time when it is positive and
1.0 otherwise, hence always positive, so the rate computation never divides
by zero; a byte delta of 5120 over one elapsed time unit yields rate 5.0,
and a zero elapsed interval yields the finite value delta/1024. -/
theorem C7_net_rate_denominator (cur prev : ℤ) (now last t : ℚ) :
    0 < netDt now last ∧
    (last < now → netDt now last = now - last) ∧
    (now ≤ last → netDt now last = 1) ∧
    netRate (prev + 5120) prev (t + 1) t = 5 ∧
    netRate cur prev t t = ((cur : ℚ) - (prev : ℚ)) / 1024 := by
  refine ⟨netDt_pos now last, fun h => if_pos h, fun h => if_neg (not_lt.mpr h), ?_, ?_⟩
  · have h1 : netDt (t + 1) t = 1 := by
      rw [netDt, if_pos (by linarith)]
      ring
    rw [netRate, h1]
    push_cast
    ring
  · have h1 : netDt t t = 1 := if_neg (lt_irrefl t)
    rw [netRate, h1, div_one]

/-- Witness for C7_net_rate_denominator at concrete counters and times. -/
theorem C7_net_rate_denominator_witness :
    netDt 3 1 = 3 - 1 ∧ netDt 1 3 = 1 ∧ netRate (0 + 5120) 0 (1 + 1) 1 = 5 :=
  ⟨(C7_net_rate_denominator 0 0 3 1 0).2.1 (by norm_num),
   (C7_net_rate_denominator 0 0 1 3 0).2.2.1 (by norm_num),
   (C7_net_rate_denominator 0 0 0 0 1).2.2.2.1⟩

/-- Outcome of one bounded external query (a subprocess.run call): either a
completed process with exit code and captured stdout, or a raised
exception. -/
inductive QueryOutcome where
  | ok (returncode : ℤ) (stdout : String)
  | exn
deriving DecidableEq

/-- Auxiliary loop of the decimal numeral reader: consume digits,
accumulating the value; a single underscore is allowed between two digits
(the Python numeral grammar); any other character fails. -/
def parseDigitsAux : List Char → ℕ → Option ℕ
  | [], acc => some acc
  | c :: rest, acc =>
    if c.isDigit then parseDigitsAux rest (acc * 10 + (c.toNat - 48))
    else if c = '_' then
      match rest with
      | [] => none
      | d :: rest2 =>
        if d.isDigit then parseDigitsAux rest2 (acc * 10 + (d.toNat - 48)) else none
    else none

/-- A run of decimal digits, with single underscores allowed between
digits, read as a natural number; the run must start with a digit, and the
empty input fails, as Python int() raises on the empty string. -/
def parseNatDigits (cs : List Char) : Option ℕ :=
  match cs with
  | [] => none
  | c :: _ => if c.isDigit then parseDigitsAux cs 0 else none

/-- Python int() applied to an already-stripped string: an optional sign
followed by decimal digits, with single underscores allowed between
digits; anything else raises ValueError, modelled as none. (Non-ASCII
decimal digits, which int() also accepts, are outside the inputs any
theorem below feeds to this function.) -/
def pyParseInt (s : String) : Option ℤ :=
  match s.toList with
  | [] => none
  | c :: rest =>
    if c = '-' then (parseNatDigits rest).map (fun n => -(Int.ofNat n))
    else if c = '+' then (parseNatDigits rest).map (fun n => Int.ofNat n)
    else (parseNatDigits (c :: rest)).map (fun n => Int.ofNat n)

/-- The whitespace characters removed by the Python str.strip() method and
tolerated around numerals by int(): exactly the characters for which
str.isspace() holds, namely U+0009 to U+000D, the information separators
U+001C to U+001F, space, NEL U+0085, NBSP U+00A0, U+1680, the Unicode
space separators U+2000 to U+200A, the line and paragraph separators
U+2028 and U+2029, U+202F, U+205F and U+3000. -/
def isPySpace (c : Char) : Bool :=
  c.toNat = 0x09 || c.toNat = 0x0a || c.toNat = 0x0b || c.toNat = 0x0c ||
  c.toNat = 0x0d || c.toNat = 0x1c || c.toNat = 0x1d || c.toNat = 0x1e ||
  c.toNat = 0x1f || c.toNat = 0x20 || c.toNat = 0x85 || c.toNat = 0xa0 ||
  c.toNat = 0x1680 || (0x2000 ≤ c.toNat && c.toNat ≤ 0x200a) ||
  c.toNat = 0x2028 || c.toNat = 0x2029 || c.toNat = 0x202f ||
  c.toNat = 0x205f || c.toNat = 0x3000

/-- The Python str.strip() method: remove leading and trailing whitespace. -/
def pyStrip (s : String) : String :=
  ⟨((s.data.dropWhile isPySpace).reverse.dropWhile isPySpace).reverse⟩

/-- The count both branches of get_security_info extract from a query
stdout: strip it, treat an empty result as 0, otherwise convert with
int(); none models the ValueError path. -/
def countFromStdout (out : String) : Option ℤ :=
  if pyStrip out = "" then some 0 else pyParseInt (pyStrip out)

/-- The auth.log branch of get_security_info (lines 77-89): an exit code
other than 0 or 1 reports a read error, an unparsable stdout reports a
parse error (the except branch), otherwise the parsed count with "OK". A
raised exception also lands in the except branch. -/
def securityFromFileLog (q : QueryOutcome) : String × ℤ :=
  match q with
  | .exn => ("Error parsing auth.log", 0)
  | .ok rc out =>
    if ¬(rc = 0 ∨ rc = 1) then ("Error reading auth.log", 0)
    else
      match countFromStdout out with
      | some n => ("OK", n)
      | none => ("Error parsing auth.log", 0)

/-- The journalctl branch of get_security_info (lines 92-101): same exit
code rule; a raised exception or unparsable stdout reports that no auth
data is available. -/
def securityFromJournal (q : QueryOutcome) : String × ℤ :=
  match q with
  | .exn => ("No auth data available", 0)
  | .ok rc out =>
    if ¬(rc = 0 ∨ rc = 1) then ("Error reading journal", 0)
    else
      match countFromStdout out with
      | some n => ("OK", n)
      | none => ("No auth data available", 0)

/-- get_security_info from gui_dashboard.py (lines 67-101) with its
environment made explicit: whether /var/log/auth.log exists, the outcome
of the grep query on it, and the outcome of the journalctl query. -/
def get_security_info (authLogExists : Bool)
    (grepQuery journalQuery : QueryOutcome) : String × ℤ :=
  if authLogExists then securityFromFileLog grepQuery
  else securityFromJournal journalQuery

/-- The SecurityStatus enum of the specification. -/
inductive SecurityStatus where
  | Ok
  | SourceUnavailable
  | ReadError
deriving DecidableEq

/-- Mapping of the status strings of get_security_info onto the enum of the
specification: "OK" is Ok; "No auth data available" (both log sources
unavailable) is SourceUnavailable; the remaining error strings are
ReadError. -/
def statusClass (s : String) : SecurityStatus :=
  if s = "OK" then .Ok
  else if s = "No auth data available" then .SourceUnavailable
  else .ReadError

/-- C4: with the auth-log file present and a count query exiting 0 with
stdout "3" the scanner returns (Ok, 3); with the file absent and a journal
query exiting 1 with empty stdout it returns (Ok, 0); with the file absent
and the journal query raising (both sources unavailable) it returns the
SourceUnavailable status with count 0. -/
theorem C4_security_scenarios (fq jq : QueryOutcome) :
    (get_security_info true (.ok 0 "3") jq = ("OK", 3) ∧
      statusClass "OK" = SecurityStatus.Ok) ∧
    get_security_info false fq (.ok 1 "") = ("OK", 0) ∧
    (get_security_info false fq .exn = ("No auth data available", 0) ∧
      statusClass "No auth data available" = SecurityStatus.SourceUnavailable) := by
  refine ⟨⟨?_, rfl⟩, ?_, rfl, rfl⟩
  · rfl
  · rfl

/-- The failed-login value update_panels feeds into the health score
(lines 442-458): the count from get_security_info, forced to 0 when the
status string is not "OK". -/
def effectiveFailedLogins (status : String) (failed : ℤ) : ℤ :=
  if status ≠ "OK" then 0 else failed

theorem securityFromFileLog_ok_or_zero (q : QueryOutcome) :
    (securityFromFileLog q).1 = "OK" ∨ (securityFromFileLog q).2 = 0 := by
  cases q with
  | exn => exact Or.inr rfl
  | ok rc out =>
    simp only [securityFromFileLog]
    by_cases h : rc = 0 ∨ rc = 1
    · rw [if_neg (not_not_intro h)]
      rcases hc : countFromStdout out with _ | n
      · exact Or.inr rfl
      · exact Or.inl rfl
    · rw [if_pos h]
      exact Or.inr rfl

theorem securityFromJournal_ok_or_zero (q : QueryOutcome) :
    (securityFromJournal q).1 = "OK" ∨ (securityFromJournal q).2 = 0 := by
  cases q with
  | exn => exact Or.inr rfl
  | ok rc out =>
    simp only [securityFromJournal]
    by_cases h : rc = 0 ∨ rc = 1
    · rw [if_neg (not_not_intro h)]
      rcases hc : countFromStdout out with _ | n
      · exact Or.inr rfl
      · exact Or.inl rfl
    · rw [if_pos h]
      exact Or.inr rfl

theorem get_security_info_ok_or_zero (fe : Bool) (fq jq : QueryOutcome) :
    (get_security_info fe fq jq).1 = "OK" ∨ (get_security_info fe fq jq).2 = 0 := by
  cases fe
  · simpa [get_security_info] using securityFromJournal_ok_or_zero jq
  · simpa [get_security_info] using securityFromFileLog_ok_or_zero fq

/-- C5: whenever the status get_security_info determines is not "OK", the
returned count is 0; update_panels additionally forces the count to 0
before scoring, so missing or unreadable security data never lowers the
health score. -/
theorem C5_missing_data_never_penalizes (fe : Bool) (fq jq : QueryOutcome)
    (h : (get_security_info fe fq jq).1 ≠ "OK") :
    (get_security_info fe fq jq).2 = 0 ∧
    effectiveFailedLogins (get_security_info fe fq jq).1 (get_security_info fe fq jq).2 = 0 ∧
    ∀ (cpu ram disk : ℚ),
      calculate_health_score cpu ram disk
        (effectiveFailedLogins (get_security_info fe fq jq).1 (get_security_info fe fq jq).2) =
      calculate_health_score cpu ram disk 0 := by
  have hz : (get_security_info fe fq jq).2 = 0 := by
    rcases get_security_info_ok_or_zero fe fq jq with hok | hzero
    · exact absurd hok h
    · exact hzero
  have he : effectiveFailedLogins (get_security_info fe fq jq).1
      (get_security_info fe fq jq).2 = 0 := by
    unfold effectiveFailedLogins
    rw [if_pos h]
  exact ⟨hz, he, fun cpu ram disk => by rw [he]⟩

/-- Witness for C5_missing_data_never_penalizes with the auth-log file
absent and a journal query exiting with code 2. -/
theorem C5_missing_data_never_penalizes_witness :
    (get_security_info false QueryOutcome.exn (QueryOutcome.ok 2 "x")).2 = 0 ∧
    effectiveFailedLogins (get_security_info false QueryOutcome.exn (QueryOutcome.ok 2 "x")).1
      (get_security_info false QueryOutcome.exn (QueryOutcome.ok 2 "x")).2 = 0 ∧
    calculate_health_score 30 40 50
      (effectiveFailedLogins (get_security_info false QueryOutcome.exn (QueryOutcome.ok 2 "x")).1
        (get_security_info false QueryOutcome.exn (QueryOutcome.ok 2 "x")).2) =
      calculate_health_score 30 40 50 0 := by
  obtain ⟨h1, h2, h3⟩ :=
    C5_missing_data_never_penalizes false QueryOutcome.exn (QueryOutcome.ok 2 "x") (by decide)
  exact ⟨h1, h2, h3 30 40 50⟩

/-- Intermediate condition for the nonnegativity argument: after stripping,
the stdout does not begin with a minus sign. Exceptions carry no stdout. -/
def stdoutNonNeg : QueryOutcome → Prop
  | .ok _ out => (pyStrip out).toList.head? ≠ some '-'
  | .exn => True

/-- The stdout has the shape a count query (grep -c, or the journalctl
pipeline ending in grep -c) can produce: every character is an ASCII
decimal digit or whitespace. On such strings the model of strip and int()
agrees with Python exactly. Exceptions carry no stdout. -/
def countShaped : QueryOutcome → Prop
  | .ok _ out => ∀ c ∈ out.toList, c.isDigit = true ∨ isPySpace c = true
  | .exn => True

theorem pyParseInt_eq_none_of_nil (s : String) (hs : s.toList = []) :
    pyParseInt s = none := by
  unfold pyParseInt
  rw [hs]

theorem pyParseInt_cons (c : Char) (rest : List Char) (s : String)
    (hs : s.toList = c :: rest) :
    pyParseInt s =
      if c = '-' then (parseNatDigits rest).map (fun n => -(Int.ofNat n))
      else if c = '+' then (parseNatDigits rest).map (fun n => Int.ofNat n)
      else (parseNatDigits (c :: rest)).map (fun n => Int.ofNat n) := by
  unfold pyParseInt
  rw [hs]

theorem countFromStdout_nonneg {out : String}
    (h : (pyStrip out).toList.head? ≠ some '-') {n : ℤ}
    (hn : countFromStdout out = some n) : 0 ≤ n := by
  unfold countFromStdout at hn
  split_ifs at hn with he
  · rw [Option.some_inj] at hn
    omega
  · cases hl : (pyStrip out).toList with
    | nil =>
      rw [pyParseInt_eq_none_of_nil _ hl] at hn
      exact absurd hn (by simp)
    | cons c rest =>
      rw [pyParseInt_cons c rest _ hl] at hn
      have hc : c ≠ '-' := by
        intro hceq
        apply h
        rw [hl, hceq]
        rfl
      rw [if_neg hc] at hn
      by_cases hp : c = '+'
      · rw [if_pos hp] at hn
        rcases Option.map_eq_some'.mp hn with ⟨m, _, hmn⟩
        have hmn' : (m : ℤ) = n := hmn
        omega
      · rw [if_neg hp] at hn
        rcases Option.map_eq_some'.mp hn with ⟨m, _, hmn⟩
        have hmn' : (m : ℤ) = n := hmn
        omega

theorem securityFromFileLog_nonneg (q : QueryOutcome) (hq : stdoutNonNeg q) :
    0 ≤ (securityFromFileLog q).2 := by
  cases q with
  | exn => norm_num [securityFromFileLog]
  | ok rc out =>
    simp only [securityFromFileLog]
    by_cases h : rc = 0 ∨ rc = 1
    · rw [if_neg (not_not_intro h)]
      rcases hc : countFromStdout out with _ | n
      · norm_num
      · exact countFromStdout_nonneg hq hc
    · rw [if_pos h]

theorem securityFromJournal_nonneg (q : QueryOutcome) (hq : stdoutNonNeg q) :
    0 ≤ (securityFromJournal q).2 := by
  cases q with
  | exn => norm_num [securityFromJournal]
  | ok rc out =>
    simp only [securityFromJournal]
    by_cases h : rc = 0 ∨ rc = 1
    · rw [if_neg (not_not_intro h)]
      rcases hc : countFromStdout out with _ | n
      · norm_num
      · exact countFromStdout_nonneg hq hc
    · rw [if_pos h]

theorem mem_pyStrip {c : Char} {s : String} (h : c ∈ (pyStrip s).toList) :
    c ∈ s.toList := by
  unfold pyStrip at h
  rw [show (String.mk (((s.data.dropWhile isPySpace).reverse.dropWhile
      isPySpace).reverse)).toList =
    ((s.data.dropWhile isPySpace).reverse.dropWhile isPySpace).reverse from rfl,
    List.mem_reverse] at h
  have h2 := (List.dropWhile_sublist isPySpace).subset h
  rw [List.mem_reverse] at h2
  exact (List.dropWhile_sublist isPySpace).subset h2

theorem stdout_head_ne_minus {out : String}
    (h : ∀ c ∈ out.toList, c.isDigit = true ∨ isPySpace c = true) :
    (pyStrip out).toList.head? ≠ some '-' := by
  intro hh
  have hm : '-' ∈ (pyStrip out).toList := by
    cases hl : (pyStrip out).toList with
    | nil =>
      rw [hl] at hh
      exact absurd hh (by simp)
    | cons c rest =>
      rw [hl] at hh
      have hc : c = '-' := by simpa using hh
      rw [hc]
      exact List.mem_cons_self _ _
  rcases h '-' (mem_pyStrip hm) with hd | hs
  · exact absurd hd (by decide)
  · exact absurd hs (by decide)

theorem stdoutNonNeg_of_countShaped {q : QueryOutcome} (h : countShaped q) :
    stdoutNonNeg q := by
  cases q with
  | exn => trivial
  | ok rc out => exact stdout_head_ne_minus h

/-- C10 as stated is false: the code passes int(stdout) through unchecked,
so a query that exits 0 with stdout "-5" makes get_security_info return
("OK", -5), a negative failed-login count. -/
theorem C10_counterexample :
    get_security_info true (QueryOutcome.ok 0 "-5") QueryOutcome.exn = ("OK", -5) ∧
      ¬(0 ≤ (-5 : ℤ)) :=
  ⟨rfl, by decide⟩

/-- C10 amended: the failed-login count is nonnegative for every outcome of
the bounded external query whose stdout consists only of ASCII decimal
digits and whitespace, the output shape of the count queries (grep -c and
the journal pipeline); a stdout that spells a negative integer, such as
"-5", is passed through as a negative count. -/
theorem C10_failed_login_count_nonneg (fe : Bool) (fq jq : QueryOutcome)
    (hf : countShaped fq) (hj : countShaped jq) :
    0 ≤ (get_security_info fe fq jq).2 := by
  cases fe
  · simpa [get_security_info] using
      securityFromJournal_nonneg jq (stdoutNonNeg_of_countShaped hj)
  · simpa [get_security_info] using
      securityFromFileLog_nonneg fq (stdoutNonNeg_of_countShaped hf)

/-- Witness for C10_failed_login_count_nonneg with the file query exiting 0
and printing "3" followed by a newline, as grep -c does. -/
theorem C10_failed_login_count_nonneg_witness :
    0 ≤ (get_security_info true (QueryOutcome.ok 0 "3\n") QueryOutcome.exn).2 :=
  C10_failed_login_count_nonneg true (QueryOutcome.ok 0 "3\n") QueryOutcome.exn
    (show ∀ c ∈ ("3\n" : String).toList, c.isDigit = true ∨ isPySpace c = true by decide)
    trivial

/-- The fixed ordered list of dangerous command substrings of
get_safety_check (lines 109-115). -/
def dangerous_keywords : List String :=
  ["rm -rf /", "mkfs", ":()\x7b :|:& \x7d;:", "chmod 777", "dd if="]

/-- Python substring containment, the `in` operator on strings: the pattern
occurs contiguously inside the line. -/
def strContains (line pat : String) : Bool :=
  decide (pat.toList <:+: line.toList)

/-- The inner loop of get_safety_check: the first keyword in list order
that occurs in the line. -/
def firstBadIn (line : String) : Option String :=
  dangerous_keywords.find? (fun bad => strContains line bad)

/-- Whether a line contains any dangerous keyword. -/
def lineDangerous (line : String) : Bool :=
  dangerous_keywords.any (fun bad => strContains line bad)

/-- The window get_safety_check scans: every line stripped, blank lines
dropped, then the last 80 lines kept. -/
def recentWindow (lines : List String) : List String :=
  ((lines.map pyStrip).filter (fun l => l ≠ "")).rtake 80

/-- The scan loop of get_safety_check (lines 124-127): walk the window in
order; in each line try the keywords in list order and return a warning
naming the first keyword found; all clear if no line matches. -/
def scanRecent : List String → String
  | [] => "No extremely dangerous command found"
  | line :: rest =>
    match firstBadIn line with
    | some bad => "WARNING: Dangerous command found -> " ++ bad
    | none => scanRecent rest

/-- get_safety_check from gui_dashboard.py (lines 103-129), as a function
of the raw lines of the history file. -/
def get_safety_check (lines : List String) : String :=
  scanRecent (recentWindow lines)

/-- SafetyChecker as claim C6 words it: find the earliest line of the
window that contains any dangerous pattern and report the first pattern in
the fixed list order occurring in that line; all clear when no line of the
window matches. -/
def safety_check_spec (lines : List String) : String :=
  match (recentWindow lines).find? (fun l => lineDangerous l) with
  | none => "No extremely dangerous command found"
  | some l =>
    match firstBadIn l with
    | some bad => "WARNING: Dangerous command found -> " ++ bad
    | none => "No extremely dangerous command found"

theorem lineDangerous_iff_firstBadIn (line : String) :
    lineDangerous line = true ↔ (firstBadIn line).isSome := by
  simp [lineDangerous, firstBadIn, List.any_eq_true, List.find?_isSome]

theorem scanRecent_eq_find (ws : List String) :
    scanRecent ws =
      match ws.find? (fun l => lineDangerous l) with
      | none => "No extremely dangerous command found"
      | some l =>
        match firstBadIn l with
        | some bad => "WARNING: Dangerous command found -> " ++ bad
        | none => "No extremely dangerous command found" := by
  induction ws with
  | nil => rfl
  | cons line rest ih =>
    by_cases hd : lineDangerous line = true
    · rw [List.find?_cons_of_pos _ hd]
      have hs : (firstBadIn line).isSome := (lineDangerous_iff_firstBadIn line).mp hd
      rcases hb : firstBadIn line with _ | bad
      · rw [hb] at hs
        simp at hs
      · simp only [scanRecent, hb]
    · rw [List.find?_cons_of_neg _ hd]
      have hb : firstBadIn line = none := by
        rcases ho : firstBadIn line with _ | bad
        · rfl
        · exact absurd ((lineDangerous_iff_firstBadIn line).mpr (by rw [ho]; rfl)) hd
      show (match firstBadIn line with
        | some bad => "WARNING: Dangerous command found -> " ++ bad
        | none => scanRecent rest) = _
      rw [hb]
      exact ih

theorem scanRecent_allclear_iff (ws : List String) :
    scanRecent ws = "No extremely dangerous command found" ↔
      ∀ l ∈ ws, lineDangerous l = false := by
  rw [scanRecent_eq_find]
  rcases hf : ws.find? (fun l => lineDangerous l) with _ | l
  · constructor
    · intro _ l hl
      have hnot := List.find?_eq_none.mp hf l hl
      simpa using hnot
    · intro _
      rfl
  · have hl : lineDangerous l = true := List.find?_some hf
    have hmem : l ∈ ws := List.mem_of_find?_eq_some hf
    have hs : (firstBadIn l).isSome := (lineDangerous_iff_firstBadIn l).mp hl
    rcases hb : firstBadIn l with _ | bad
    · rw [hb] at hs
      simp at hs
    · simp only [hb]
      constructor
      · intro hW
        have hbadmem : bad ∈ dangerous_keywords := List.mem_of_find?_eq_some hb
        exfalso
        simp only [dangerous_keywords, List.mem_cons, List.mem_singleton,
          List.not_mem_nil, or_false] at hbadmem
        rcases hbadmem with rfl | rfl | rfl | rfl | rfl <;> exact absurd hW (by decide)
      · intro hall
        exact absurd (hall l hmem) (by rw [hl]; decide)

/-- An 80-line history window: harmless lines everywhere except
"mkfs /dev/sda" at position 10 and "chmod 777 /etc" at position 40. -/
def exampleWindow : List String :=
  List.replicate 10 "ls -la" ++ ["mkfs /dev/sda"] ++ List.replicate 29 "echo hi" ++
    ["chmod 777 /etc"] ++ List.replicate 39 "pwd"

/-- C6: get_safety_check scans the last 80 non-blank stripped lines in
order and reports, for the earliest line containing any dangerous pattern,
the first pattern in the fixed list order occurring in it; the all-clear
message is returned exactly when no line of the window contains any
pattern; on a window with "mkfs /dev/sda" at position 10 and
"chmod 777 /etc" at position 40 it reports the "mkfs" match. -/
theorem C6_safety_check_scan (lines : List String) :
    get_safety_check lines = safety_check_spec lines ∧
    (get_safety_check lines = "No extremely dangerous command found" ↔
      ∀ l ∈ recentWindow lines, lineDangerous l = false) ∧
    get_safety_check exampleWindow = "WARNING: Dangerous command found -> mkfs" := by
  refine ⟨scanRecent_eq_find (recentWindow lines),
    scanRecent_allclear_iff (recentWindow lines), ?_⟩
  decide

/-- Witness for C6_safety_check_scan at the concrete example window. -/
theorem C6_safety_check_scan_witness :
    get_safety_check exampleWindow = safety_check_spec exampleWindow :=
  (C6_safety_check_scan exampleWindow).1

/-- The per-channel history capacity, self.history_len = 60 in
TaskStudyManager.__init__ (line 185). -/
def history_len : ℕ := 60

/-- One append to a deque with maxlen = history_len (lines 186-189 and
388-391): add the value at the right end, then discard from the left end
down to the capacity, which evicts exactly the oldest entry once full. -/
def historyAppend (buf : List ℚ) (v : ℚ) : List ℚ :=
  (buf ++ [v]).drop ((buf ++ [v]).length - history_len)

/-- The initial per-channel buffer deque([0]*history_len, maxlen=history_len). -/
def historyInit : List ℚ := List.replicate history_len 0

theorem historyAppend_eq_rtake (buf : List ℚ) (v : ℚ) :
    historyAppend buf v = (buf ++ [v]).rtake history_len := rfl

theorem rtake_append_rtake (n : ℕ) (l vs : List ℚ) :
    ((l.rtake n) ++ vs).rtake n = (l ++ vs).rtake n := by
  simp only [List.rtake, List.length_append, List.length_drop,
    List.drop_append_eq_append_drop, List.drop_drop]
  congr 1
  · congr 1
    omega
  · congr 1
    omega

theorem historyAppend_length_le (buf : List ℚ) (v : ℚ) :
    (historyAppend buf v).length ≤ history_len := by
  simp only [historyAppend, List.length_drop, List.length_append]
  omega

theorem foldl_historyAppend (vs : List ℚ) :
    ∀ buf : List ℚ, buf.length ≤ history_len →
      vs.foldl historyAppend buf = (buf ++ vs).rtake history_len := by
  induction vs with
  | nil =>
    intro buf h
    simp only [List.foldl_nil, List.append_nil, List.rtake]
    rw [Nat.sub_eq_zero_of_le h, List.drop_zero]
  | cons v vs ih =>
    intro buf h
    rw [List.foldl_cons, ih _ (historyAppend_length_le buf v), historyAppend_eq_rtake,
      rtake_append_rtake, List.append_assoc, List.singleton_append]

/-- C8: each per-channel history buffer starts as 60 zero samples; a push
onto a full buffer keeps the length at exactly 60 and equals dropping the
oldest entry and appending the new value; and after any sequence of at
least 60 pushes, the buffer holds exactly the last 60 pushed values in
oldest-to-newest order. -/
theorem C8_history_buffer (v : ℚ) (buf vs : List ℚ) :
    historyInit.length = history_len ∧
    (buf.length = history_len → (historyAppend buf v).length = history_len) ∧
    (buf.length = history_len → historyAppend buf v = buf.drop 1 ++ [v]) ∧
    (history_len ≤ vs.length →
      vs.foldl historyAppend historyInit = vs.rtake history_len) := by
  refine ⟨by simp [historyInit], fun h => ?_, fun h => ?_, fun h => ?_⟩
  · simp only [historyAppend, List.length_drop, List.length_append, h,
      List.length_singleton]
    omega
  · have h1 : (buf ++ [v]).length - history_len = 1 := by
      rw [List.length_append, h]
      simp only [List.length_singleton]
      omega
    rw [historyAppend, h1, List.drop_append_eq_append_drop, h]
    norm_num [history_len]
  · rw [foldl_historyAppend vs historyInit (le_of_eq (by simp [historyInit]))]
    have hinit : historyInit.length = history_len := by simp [historyInit]
    simp only [List.rtake, List.length_append, hinit]
    rw [List.drop_append_eq_append_drop, hinit]
    rw [List.drop_eq_nil_of_le (by rw [hinit]; omega), List.nil_append]
    congr 1
    omega

/-- Witness for C8_history_buffer: one push onto the initial buffer and a
run of 70 pushes of the value 7. -/
theorem C8_history_buffer_witness :
    (historyAppend historyInit 5).length = history_len ∧
    historyAppend historyInit 5 = historyInit.drop 1 ++ [5] ∧
    (List.replicate 70 (7 : ℚ)).foldl historyAppend historyInit =
      (List.replicate 70 (7 : ℚ)).rtake history_len := by
  obtain ⟨_, h2, h3, h4⟩ := C8_history_buffer 5 historyInit (List.replicate 70 (7 : ℚ))
  exact ⟨h2 (by simp [historyInit]), h3 (by simp [historyInit]),
    h4 (by norm_num [history_len])⟩
